import Mathlib

/-!
Verification of the hypoglycemia-risk calculator (`src/app.py`).

The model under verification is a fixed logistic-regression scorer:
a coefficient table `COEF`, a logit evaluator `logit_from_inputs`, a
sigmoid `logistic`, a risk-tier discretization of the probability, and a
per-feature contribution decomposition `contributions` relative to a
user-chosen baseline.  Continuous inputs and coefficients are embedded as
rationals (the Python floats are decimal literals and the claims are about
the exact arithmetic); the sigmoid is embedded over the reals.
-/

namespace HypoRisk

/-- The five options of the diagnosis select box; the first is the
reference level (`"Gallbladder/pancreatic disease (reference)"`). -/
inductive Diagnosis
  | gallbladderPancreatic
  | colonicLesion
  | gastricNeoplasm
  | esophagealLesion
  | otherDiseases
deriving DecidableEq, Repr

/-- The four options of the diastolic-blood-pressure select box; the
first (`"< 90 mmHg (reference)"`) is the reference band. -/
inductive DbpCat
  | ref
  | cat2
  | cat3
  | cat4
deriving DecidableEq, Repr

/-- The coefficient table of `src/app.py` (`COEF`, lines 14-28). -/
structure Coef where
  intercept : ℚ
  dx_colon : ℚ
  dx_gastric : ℚ
  dx_esophageal : ℚ
  dx_other : ℚ
  lax_yes : ℚ
  dbp_cat2 : ℚ
  dbp_cat3 : ℚ
  dbp_cat4 : ℚ
  bun : ℚ
  glucose : ℚ
  hb : ℚ
  nrs_yes : ℚ
deriving DecidableEq

/-- The fixed coefficient values of `src/app.py`. -/
def COEF : Coef :=
  { intercept := -6.18
    dx_colon := -2.342
    dx_gastric := -3.267
    dx_esophageal := -1.344
    dx_other := -1.534
    lax_yes := 2.826
    dbp_cat2 := 1.928
    dbp_cat3 := 0.287
    dbp_cat4 := -0.168
    bun := 0.101
    glucose := 0.074
    hb := 0.151
    nrs_yes := 5.46 }

/-- `logit_from_inputs` of `src/app.py` (lines 58-69): the base linear
term followed by the `if`/`elif` chains for the DBP band, the two binary
flags and the diagnosis.  The laxative and NRS select boxes offer
`"No / 否"` and `"Yes / 是"`, which the code tests with `"Yes" in lax`;
they are embedded as `Bool`. -/
def logit_from_inputs (diagnosis : Diagnosis) (dbp_cat : DbpCat)
    (glucose bun hb : ℚ) (lax nrs : Bool) : ℚ :=
  let z := COEF.intercept + COEF.glucose * glucose + COEF.bun * bun + COEF.hb * hb
  let z := match dbp_cat with
    | .cat2 => z + COEF.dbp_cat2
    | .cat3 => z + COEF.dbp_cat3
    | .cat4 => z + COEF.dbp_cat4
    | .ref => z
  let z := if lax then z + COEF.lax_yes else z
  let z := if nrs then z + COEF.nrs_yes else z
  match diagnosis with
    | .colonicLesion => z + COEF.dx_colon
    | .gastricNeoplasm => z + COEF.dx_gastric
    | .esophagealLesion => z + COEF.dx_esophageal
    | .otherDiseases => z + COEF.dx_other
    | .gallbladderPancreatic => z

/-- The baseline dictionary built at `src/app.py` line 100:
`{"glucose": base_glu, "bun": base_bun, "hb": base_hb, "dbp": base_dbp,
"lax": base_lax, "nrs": base_nrs}`. -/
structure Base where
  glucose : ℚ
  bun : ℚ
  hb : ℚ
  dbp : DbpCat
  lax : Bool
  nrs : Bool
deriving DecidableEq, Repr

/-- The twelve entries of the dictionary returned by `contributions`
in `src/app.py` (lines 71-82), one field per key. -/
structure Contrib where
  serum_glucose : ℚ
  blood_urea_nitrogen : ℚ
  hemoglobin : ℚ
  dbp2 : ℚ
  dbp3 : ℚ
  dbp4 : ℚ
  laxative_yes : ℚ
  nrs_yes : ℚ
  dx_colonic : ℚ
  dx_gastric : ℚ
  dx_esophageal : ℚ
  dx_other : ℚ
deriving DecidableEq, Repr

/-- `contributions` of `src/app.py` (lines 71-82).  The continuous
entries subtract the baseline value; each categorical or binary entry is
the weight times the indicator of the CURRENT selection only — the code
never reads `base["dbp"]`, `base["lax"]` or `base["nrs"]`. -/
def contributions (diagnosis : Diagnosis) (dbp_cat : DbpCat)
    (glucose bun hb : ℚ) (lax nrs : Bool) (base : Base) : Contrib :=
  { serum_glucose := COEF.glucose * (glucose - base.glucose)
    blood_urea_nitrogen := COEF.bun * (bun - base.bun)
    hemoglobin := COEF.hb * (hb - base.hb)
    dbp2 := COEF.dbp_cat2 * (if dbp_cat = .cat2 then 1 else 0)
    dbp3 := COEF.dbp_cat3 * (if dbp_cat = .cat3 then 1 else 0)
    dbp4 := COEF.dbp_cat4 * (if dbp_cat = .cat4 then 1 else 0)
    laxative_yes := COEF.lax_yes * (if lax then 1 else 0)
    nrs_yes := COEF.nrs_yes * (if nrs then 1 else 0)
    dx_colonic := COEF.dx_colon * (if diagnosis = .colonicLesion then 1 else 0)
    dx_gastric := COEF.dx_gastric * (if diagnosis = .gastricNeoplasm then 1 else 0)
    dx_esophageal := COEF.dx_esophageal * (if diagnosis = .esophagealLesion then 1 else 0)
    dx_other := COEF.dx_other * (if diagnosis = .otherDiseases then 1 else 0) }

/-- Modelled from the spec (section 4.2), for comparison with the code:
"contribution of a categorical/binary feature = its weight ×
(indicator(value selected) − indicator(baseline value selected))".
The baseline carries no diagnosis selector, so the baseline diagnosis is
the reference level and its indicators are 0. -/
def contributions_spec (diagnosis : Diagnosis) (dbp_cat : DbpCat)
    (glucose bun hb : ℚ) (lax nrs : Bool) (base : Base) : Contrib :=
  { serum_glucose := COEF.glucose * (glucose - base.glucose)
    blood_urea_nitrogen := COEF.bun * (bun - base.bun)
    hemoglobin := COEF.hb * (hb - base.hb)
    dbp2 := COEF.dbp_cat2 *
      ((if dbp_cat = .cat2 then 1 else 0) - (if base.dbp = .cat2 then 1 else 0))
    dbp3 := COEF.dbp_cat3 *
      ((if dbp_cat = .cat3 then 1 else 0) - (if base.dbp = .cat3 then 1 else 0))
    dbp4 := COEF.dbp_cat4 *
      ((if dbp_cat = .cat4 then 1 else 0) - (if base.dbp = .cat4 then 1 else 0))
    laxative_yes := COEF.lax_yes *
      ((if lax then 1 else 0) - (if base.lax then 1 else 0))
    nrs_yes := COEF.nrs_yes *
      ((if nrs then 1 else 0) - (if base.nrs then 1 else 0))
    dx_colonic := COEF.dx_colon * ((if diagnosis = .colonicLesion then 1 else 0) - 0)
    dx_gastric := COEF.dx_gastric * ((if diagnosis = .gastricNeoplasm then 1 else 0) - 0)
    dx_esophageal := COEF.dx_esophageal * ((if diagnosis = .esophagealLesion then 1 else 0) - 0)
    dx_other := COEF.dx_other * ((if diagnosis = .otherDiseases then 1 else 0) - 0) }

/-- The sum of the twelve contribution entries (the bar chart decomposes
the logit into exactly these entries). -/
def totalContrib (c : Contrib) : ℚ :=
  c.serum_glucose + c.blood_urea_nitrogen + c.hemoglobin
    + c.dbp2 + c.dbp3 + c.dbp4 + c.laxative_yes + c.nrs_yes
    + c.dx_colonic + c.dx_gastric + c.dx_esophageal + c.dx_other

/-- The DBP-band offset added by the `if`/`elif` chain of
`logit_from_inputs` (0 for the reference band). -/
def dbpOffset : DbpCat → ℚ
  | .ref => 0
  | .cat2 => COEF.dbp_cat2
  | .cat3 => COEF.dbp_cat3
  | .cat4 => COEF.dbp_cat4

/-- The diagnosis offset added by the `if`/`elif` chain of
`logit_from_inputs` (0 for the reference diagnosis). -/
def dxOffset : Diagnosis → ℚ
  | .gallbladderPancreatic => 0
  | .colonicLesion => COEF.dx_colon
  | .gastricNeoplasm => COEF.dx_gastric
  | .esophagealLesion => COEF.dx_esophageal
  | .otherDiseases => COEF.dx_other

/-- The helper `logistic` of `src/app.py` (line 56):
`def logistic(x): return 1/(1+np.exp(-x))`, over the reals. -/
noncomputable def logistic (x : ℝ) : ℝ := 1 / (1 + Real.exp (-x))

/-- The three risk tiers of the display branch (`src/app.py` lines
89-97). -/
inductive RiskTier
  | low
  | moderate
  | high
deriving DecidableEq, Repr

open Classical in
/-- The tier branch of `src/app.py` (lines 89-97):
`if p < 0.35: ... elif p < 0.65: ... else: ...`. -/
noncomputable def riskTier (p : ℝ) : RiskTier :=
  if p < 0.35 then .low else if p < 0.65 then .moderate else .high

/-- The Chinese tier label shown for each branch of `src/app.py`
lines 89-97. -/
def tierLabel : RiskTier → String
  | .low => "低风险"
  | .moderate => "中等风险"
  | .high => "高风险"

/-- The fixed advisory string shown for each branch of `src/app.py`
lines 89-97. -/
def advice : RiskTier → String
  | .low => "例行监测；常规术前宣教与观察。"
  | .moderate => "加强术前/术后血糖监测；确保补液与碳水化合物支持；评估导泻耐受。"
  | .high => "术前优化血糖并个体化肠道准备；考虑缩短禁食；密切动态监测与沟通。"

lemma one_add_exp_pos (x : ℝ) : 0 < 1 + Real.exp x := by positivity

lemma logistic_lt_logistic {z1 z2 : ℝ} (h : z1 < z2) : logistic z1 < logistic z2 := by
  unfold logistic
  apply div_lt_div_of_pos_left one_pos (one_add_exp_pos _)
  have : Real.exp (-z2) < Real.exp (-z1) := Real.exp_lt_exp.mpr (by linarith)
  linarith

lemma logistic_zero : logistic 0 = 1 / 2 := by
  simp [logistic, Real.exp_zero]
  norm_num

lemma riskTier_low_iff (p : ℝ) : riskTier p = .low ↔ p < 0.35 := by
  unfold riskTier
  by_cases h1 : p < 0.35
  · simp [h1]
  · by_cases h2 : p < 0.65 <;> simp [h1, h2]

lemma riskTier_moderate_iff (p : ℝ) : riskTier p = .moderate ↔ 0.35 ≤ p ∧ p < 0.65 := by
  unfold riskTier
  by_cases h1 : p < 0.35
  · simp [h1]
  · by_cases h2 : p < 0.65
    · simp [h1, h2]
      linarith [not_lt.mp h1]
    · simp [h1, h2]

lemma riskTier_high_iff (p : ℝ) : riskTier p = .high ↔ 0.65 ≤ p := by
  unfold riskTier
  by_cases h1 : p < 0.35
  · simp [h1]
    linarith
  · by_cases h2 : p < 0.65
    · simp [h1, h2]
    · simp [h1, h2]
      linarith [not_lt.mp h2]

lemma exp_example_logit_big : (999 : ℝ) < Real.exp 14.4704 := by
  have h8 : Real.exp ((8:ℕ) * (14.4704/8 : ℝ)) = Real.exp (14.4704/8) ^ 8 :=
    Real.exp_nat_mul _ 8
  have heq : ((8:ℕ) : ℝ) * (14.4704/8 : ℝ) = 14.4704 := by norm_num
  have h1 : (14.4704/8 : ℝ) + 1 ≤ Real.exp (14.4704/8) := Real.add_one_le_exp _
  have h2 : (2.8088 : ℝ) ^ 8 ≤ Real.exp (14.4704/8) ^ 8 := by
    apply pow_le_pow_left₀ (by norm_num)
    linarith
  have h3 : (999 : ℝ) < (2.8088 : ℝ) ^ 8 := by norm_num
  calc (999:ℝ) < (2.8088:ℝ)^8 := h3
    _ ≤ Real.exp (14.4704/8) ^ 8 := h2
    _ = Real.exp 14.4704 := by rw [← h8, heq]

lemma logistic_example_logit_gt : (0.999 : ℝ) < logistic 14.4704 := by
  have hexp : Real.exp (-14.4704 : ℝ) < (999:ℝ)⁻¹ := by
    rw [Real.exp_neg]
    exact inv_strictAnti₀ (by norm_num) exp_example_logit_big
  have h0 : (0:ℝ) < 1 + Real.exp (-14.4704 : ℝ) := one_add_exp_pos _
  have hlt : (1:ℝ) + Real.exp (-14.4704 : ℝ) < 1000/999 := by
    have : (1000:ℝ)/999 = 1 + (999:ℝ)⁻¹ := by norm_num
    linarith
  have key : (1:ℝ) / (1000/999) < 1 / (1 + Real.exp (-14.4704 : ℝ)) :=
    div_lt_div_of_pos_left one_pos h0 hlt
  have : (1:ℝ) / (1000/999) = 0.999 := by norm_num
  unfold logistic
  linarith

/-- C1: for every diagnosis, DBP band, continuous values and flags, the
logit computed by `logit_from_inputs` equals the flat sum
`intercept + w_glucose·glucose + w_bun·bun + w_hb·hb` plus the DBP-band
offset (0 for the reference band), plus `w_laxative` if the laxative flag
is set else 0, plus `w_nrs` if the NRS flag is set else 0, plus the
diagnosis offset (0 for the reference diagnosis), with the coefficients
of `COEF`. -/
theorem C1_logit_linear_form (d : Diagnosis) (dbp : DbpCat) (g b h : ℚ)
    (lax nrs : Bool) :
    logit_from_inputs d dbp g b h lax nrs =
      COEF.intercept + COEF.glucose * g + COEF.bun * b + COEF.hb * h
        + dbpOffset dbp + (if lax then COEF.lax_yes else 0)
        + (if nrs then COEF.nrs_yes else 0) + dxOffset d := by
  cases d <;> cases dbp <;> cases lax <;> cases nrs <;>
    simp [logit_from_inputs, dbpOffset, dxOffset]

/-- C2: the displayed probability is `1/(1+e^(−z))`; the risk tier is
low exactly when the probability is below 0.35, moderate exactly when it
is in [0.35, 0.65), and high exactly when it is at least 0.65; in
particular 0.35 lands in the moderate tier and 0.65 in the high tier;
and each tier is paired with its fixed advisory string. -/
theorem C2_probability_and_tiers :
    (∀ z : ℝ, logistic z = 1 / (1 + Real.exp (-z))) ∧
    (∀ p : ℝ,
      (riskTier p = RiskTier.low ↔ p < 0.35) ∧
      (riskTier p = RiskTier.moderate ↔ 0.35 ≤ p ∧ p < 0.65) ∧
      (riskTier p = RiskTier.high ↔ 0.65 ≤ p)) ∧
    riskTier 0.35 = RiskTier.moderate ∧
    riskTier 0.65 = RiskTier.high ∧
    advice RiskTier.low = "例行监测；常规术前宣教与观察。" ∧
    advice RiskTier.moderate = "加强术前/术后血糖监测；确保补液与碳水化合物支持；评估导泻耐受。" ∧
    advice RiskTier.high = "术前优化血糖并个体化肠道准备；考虑缩短禁食；密切动态监测与沟通。" :=
  ⟨fun _ => rfl,
   fun p => ⟨riskTier_low_iff p, riskTier_moderate_iff p, riskTier_high_iff p⟩,
   (riskTier_moderate_iff _).mpr (by norm_num),
   (riskTier_high_iff _).mpr (by norm_num),
   rfl, rfl, rfl⟩

/-- C3 (divergence): with the current DBP band at the reference and the
baseline DBP band at `90–100 mmHg`, the dictionary returned by
`contributions` differs from the spec's formula
`weight × (indicator(current) − indicator(baseline))`: the code returns
0 for the `DBP: 90–100 mmHg` entry where the spec requires
`1.928 × (0 − 1) = −1.928`, because the code never reads the baseline
DBP, laxative or NRS selections. -/
theorem C3_code_vs_spec :
    contributions .gallbladderPancreatic .ref 5.6 6 130 false false
        { glucose := 5.6, bun := 6, hb := 130, dbp := DbpCat.cat2,
          lax := false, nrs := false } ≠
      contributions_spec .gallbladderPancreatic .ref 5.6 6 130 false false
        { glucose := 5.6, bun := 6, hb := 130, dbp := DbpCat.cat2,
          lax := false, nrs := false } := by
  intro hEq
  have h2 := congrArg Contrib.dbp2 hEq
  simp +decide [contributions, contributions_spec, COEF] at h2
  norm_num at h2

/-- C4 (divergence): with every current input at its reference level and
a baseline that differs only by laxative = Yes, the contributions sum to
0 while the logit of the current input minus the logit of the baseline
input is −2.826, so the claimed decomposition identity fails on the
code. -/
theorem C4_sum_not_logit_delta :
    totalContrib (contributions .gallbladderPancreatic .ref 5.6 6 130 false false
        { glucose := 5.6, bun := 6, hb := 130, dbp := DbpCat.ref,
          lax := true, nrs := false }) ≠
      logit_from_inputs .gallbladderPancreatic .ref 5.6 6 130 false false
        - logit_from_inputs .gallbladderPancreatic .ref 5.6 6 130 true false := by
  simp +decide [contributions, totalContrib, logit_from_inputs, COEF]
  norm_num

/-- C5 (divergence): with the baseline equal to the current input and
the laxative flag set on both, `contributions` returns 2.826 — not 0 —
for the laxative entry, because the code multiplies the weight by the
current indicator alone instead of the difference of indicators. -/
theorem C5_selfbaseline_nonzero :
    (contributions .gallbladderPancreatic .ref 5.6 6 130 true false
        { glucose := 5.6, bun := 6, hb := 130, dbp := DbpCat.ref,
          lax := true, nrs := false }).laxative_yes ≠ 0 := by
  norm_num [contributions, COEF]

/-- C6: with all categorical inputs at their reference levels
(reference diagnosis, reference DBP band, laxative = no, NRS = no),
`logit_from_inputs` returns exactly
`intercept + w_glucose·glucose + w_bun·bun + w_hb·hb`. -/
theorem C6_reference_reduction (g b h : ℚ) :
    logit_from_inputs .gallbladderPancreatic .ref g b h false false =
      COEF.intercept + COEF.glucose * g + COEF.bun * b + COEF.hb * h := rfl

/-- C7: `logistic` is strictly increasing, and `logistic 0 = 1/2`. -/
theorem C7_logistic_monotone_and_half :
    (∀ z1 z2 : ℝ, z1 < z2 → logistic z1 < logistic z2) ∧ logistic 0 = 1 / 2 :=
  ⟨fun _ _ h => logistic_lt_logistic h, logistic_zero⟩

/-- Witness for C7 at the concrete pair (0, 1). -/
theorem C7_logistic_monotone_and_half_witness :
    (0:ℝ) < 1 ∧ logistic 0 < logistic 1 ∧ logistic 0 = 1 / 2 :=
  ⟨by norm_num, C7_logistic_monotone_and_half.1 0 1 (by norm_num),
   C7_logistic_monotone_and_half.2⟩

/-- C8: at diagnosis = reference, DBP = reference, glucose = 5.6,
BUN = 6.0, hemoglobin = 130, laxative = no, NRS = no, the logit is
exactly 14.4704, the probability exceeds 0.999 (saturates towards 1),
and the risk tier is high. -/
theorem C8_example_saturates :
    logit_from_inputs .gallbladderPancreatic .ref 5.6 6 130 false false = 14.4704 ∧
    (0.999 : ℝ) < logistic 14.4704 ∧
    riskTier (logistic 14.4704) = RiskTier.high :=
  ⟨by norm_num [logit_from_inputs, COEF],
   logistic_example_logit_gt,
   (riskTier_high_iff _).mpr (by linarith [logistic_example_logit_gt])⟩

/-- C9: `contributions` reads only the continuous fields of the baseline
dictionary; two baselines with the same glucose, BUN and hemoglobin but
arbitrarily different DBP band, laxative flag or NRS flag give the same
result. -/
theorem C9_baseline_categoricals_irrelevant (d : Diagnosis) (dbp : DbpCat)
    (g b h : ℚ) (lax nrs : Bool) (b1 b2 : Base)
    (hg : b1.glucose = b2.glucose) (hb : b1.bun = b2.bun) (hh : b1.hb = b2.hb) :
    contributions d dbp g b h lax nrs b1 = contributions d dbp g b h lax nrs b2 := by
  simp [contributions, hg, hb, hh]

/-- Witness for C9 at a concrete input with two baselines differing in
every categorical and binary field. -/
theorem C9_baseline_categoricals_irrelevant_witness :
    contributions .gallbladderPancreatic .ref 5.6 6 130 false false
      { glucose := 5.6, bun := 6, hb := 130, dbp := DbpCat.ref,
        lax := false, nrs := false } =
    contributions .gallbladderPancreatic .ref 5.6 6 130 false false
      { glucose := 5.6, bun := 6, hb := 130, dbp := DbpCat.cat2,
        lax := true, nrs := true } :=
  C9_baseline_categoricals_irrelevant _ _ _ _ _ _ _ _ _ rfl rfl rfl

/-- C10: the contributions always sum to the logit of the current input
minus the logit of the input whose continuous values are the baseline
glucose, BUN and hemoglobin and whose categorical inputs are all at
their reference levels. -/
theorem C10_sum_eq_delta_vs_reference (d : Diagnosis) (dbp : DbpCat)
    (g b h : ℚ) (lax nrs : Bool) (base : Base) :
    totalContrib (contributions d dbp g b h lax nrs base) =
      logit_from_inputs d dbp g b h lax nrs
        - logit_from_inputs .gallbladderPancreatic .ref
            base.glucose base.bun base.hb false false := by
  cases d <;> cases dbp <;> cases lax <;> cases nrs <;>
    simp [contributions, totalContrib, logit_from_inputs] <;> ring

end HypoRisk
